import Mathlib

/-!
Shallow embedding of `src/features/FeatureEngine.ts` from the
mobile stretch coach repository, together with proofs of the
specification claims about the Feature Engine.

Numbers are modelled as real numbers; `Math.sqrt`, `Math.acos`,
`Math.atan2` and `Math.PI` are modelled by `Real.sqrt`, `Real.arccos`,
the standard branch definition of `atan2`, and `Real.pi`.
Boolean tests on reals use classical decidability.
-/

open scoped Classical

noncomputable section

namespace FeatureEngine

/-- Type `KeypointName` from `src/types/index.ts` (COCO keypoints plus feet). -/
inductive KeypointName
  | nose | left_eye | right_eye | left_ear | right_ear
  | left_shoulder | right_shoulder | left_elbow | right_elbow
  | left_wrist | right_wrist
  | left_hip | right_hip
  | left_knee | right_knee | left_ankle | right_ankle
  | left_heel | right_heel | left_toe | right_toe
  deriving DecidableEq, Repr, Fintype

open KeypointName

/-- The `Object.keys` order of a well-formed `Record<KeypointName, Keypoint>`:
the declared keypoint names. -/
def keypointNames : List KeypointName :=
  [nose, left_eye, right_eye, left_ear, right_ear,
   left_shoulder, right_shoulder, left_elbow, right_elbow,
   left_wrist, right_wrist,
   left_hip, right_hip,
   left_knee, right_knee, left_ankle, right_ankle,
   left_heel, right_heel, left_toe, right_toe]

/-- A `Keypoint`: 2D position plus a confidence. -/
structure Keypoint where
  x : ℝ
  y : ℝ
  confidence : ℝ

/-- A pose frame: total keypoint record, timestamp and frame id. -/
structure Pose where
  keypoints : KeypointName → Keypoint
  timestamp : ℝ
  frameId : ℕ

/-- The side parameter `'left' | 'right'` of the per-side helpers. -/
inductive Side
  | left | right
  deriving DecidableEq, Repr

/-- Joint angles record of `Features`. -/
structure JointAngles where
  leftHip : ℝ
  rightHip : ℝ
  leftKnee : ℝ
  rightKnee : ℝ
  leftShoulder : ℝ
  rightShoulder : ℝ
  leftElbow : ℝ
  rightElbow : ℝ
  neck : ℝ

/-- Body part positions record of `Features`. -/
structure Positions where
  hipHeight : ℝ
  shoulderHeight : ℝ
  headHeight : ℝ
  leftAnkleHeight : ℝ
  rightAnkleHeight : ℝ

/-- Velocity record of `Features`. -/
structure Velocity where
  bodyLineAngle : ℝ
  hipHeight : ℝ
  shoulderHeight : ℝ

/-- Stability record of `Features` (JS booleans as propositions). -/
structure Stability where
  isStable : Prop
  stabilityScore : ℝ
  motionGate : Prop

/-- The per-region critical-point confidences exposed by
`calculateVisibility`. -/
structure CriticalPoints where
  shoulders : ℝ
  hips : ℝ
  ankles : ℝ

/-- Visibility record of `Features`. -/
structure Visibility where
  overall : ℝ
  criticalPoints : CriticalPoints
  hasMinimumVisibility : Prop

/-- Record `Features` from `src/types/index.ts`. -/
structure Features where
  bodyLineAngle : ℝ
  bodyLineConfidence : ℝ
  angles : JointAngles
  positions : Positions
  velocity : Velocity
  stability : Stability
  visibility : Visibility
  timestamp : ℝ
  frameId : ℕ

/-- Config `FeatureConfig` (the fields the engine reads). -/
structure FeatureConfig where
  smoothingFactor : ℝ
  stabilityWindowMs : ℝ
  motionThreshold : ℝ

/-- The constructor defaults of `FeatureEngine`. -/
def defaultConfig : FeatureConfig :=
  { smoothingFactor := 0.1
    stabilityWindowMs := 1000
    motionThreshold := 5.0 }

/-- Type `ServiceResponse<T>` restricted to the two shapes
`calculateFeatures` builds. -/
inductive ServiceResponse (α : Type) where
  | ok (data : α) (timestamp : ℝ)
  | err (timestamp : ℝ)

/-- Model of `Math.atan2 y x` (standard branch definition, as in JavaScript). -/
def atan2 (y x : ℝ) : ℝ :=
  if 0 < x then Real.arctan (y / x)
  else if x < 0 ∧ 0 ≤ y then Real.arctan (y / x) + Real.pi
  else if x < 0 ∧ y < 0 then Real.arctan (y / x) - Real.pi
  else if x = 0 ∧ 0 < y then Real.pi / 2
  else if x = 0 ∧ y < 0 then -(Real.pi / 2)
  else 0

/-- Magnitude of a 2D vector, `Math.sqrt(v.x*v.x + v.y*v.y)`. -/
def magnitude (v : ℝ × ℝ) : ℝ :=
  Real.sqrt (v.1 * v.1 + v.2 * v.2)

/-- Helper `calculateAngleBetweenVectors`: dot over magnitude product, clamped
to [-1,1], inverse cosine, converted to degrees; `0` on a
zero-magnitude vector. -/
def calculateAngleBetweenVectors (v1 v2 : ℝ × ℝ) : ℝ :=
  let dot := v1.1 * v2.1 + v1.2 * v2.2
  let mag1 := magnitude v1
  let mag2 := magnitude v2
  if mag1 = 0 ∨ mag2 = 0 then 0
  else
    let cosAngle := dot / (mag1 * mag2)
    let angle := Real.arccos (max (-1) (min 1 cosAngle))
    angle * (180 / Real.pi)

/-- Helper `areKeypointsVisible`: every keypoint has confidence ≥ 0.6. -/
def areKeypointsVisible (kps : List Keypoint) : Prop :=
  ∀ kp ∈ kps, kp.confidence ≥ 0.6

/-- Helper `averageY`: mean y over the keypoints with confidence ≥ 0.6,
`0` when none qualifies. -/
def averageY (kps : List Keypoint) : ℝ :=
  let visible := kps.filter fun kp => kp.confidence ≥ 0.6
  if visible.length = 0 then 0
  else (visible.foldl (fun acc kp => acc + kp.y) 0) / visible.length

/-- Keypoint lookup for the side-parameterised record accesses. -/
def sideHip (k : KeypointName → Keypoint) : Side → Keypoint
  | .left => k left_hip
  | .right => k right_hip

def sideKnee (k : KeypointName → Keypoint) : Side → Keypoint
  | .left => k left_knee
  | .right => k right_knee

def sideAnkle (k : KeypointName → Keypoint) : Side → Keypoint
  | .left => k left_ankle
  | .right => k right_ankle

def sideShoulder (k : KeypointName → Keypoint) : Side → Keypoint
  | .left => k left_shoulder
  | .right => k right_shoulder

def sideElbow (k : KeypointName → Keypoint) : Side → Keypoint
  | .left => k left_elbow
  | .right => k right_elbow

def sideWrist (k : KeypointName → Keypoint) : Side → Keypoint
  | .left => k left_wrist
  | .right => k right_wrist

/-- Helper `calculateHipAngle` (hip-knee-ankle with knee as the middle point). -/
def calculateHipAngle (k : KeypointName → Keypoint) (side : Side) : ℝ :=
  let hip := sideHip k side
  let knee := sideKnee k side
  let ankle := sideAnkle k side
  if areKeypointsVisible [hip, knee, ankle] then
    calculateAngleBetweenVectors
      (hip.x - knee.x, hip.y - knee.y)
      (ankle.x - knee.x, ankle.y - knee.y)
  else 0

/-- Helper `calculateKneeAngle` (vectors knee−hip and knee−ankle). -/
def calculateKneeAngle (k : KeypointName → Keypoint) (side : Side) : ℝ :=
  let hip := sideHip k side
  let knee := sideKnee k side
  let ankle := sideAnkle k side
  if areKeypointsVisible [hip, knee, ankle] then
    calculateAngleBetweenVectors
      (knee.x - hip.x, knee.y - hip.y)
      (knee.x - ankle.x, knee.y - ankle.y)
  else 0

/-- Helper `calculateShoulderAngle` (hip-shoulder-elbow). -/
def calculateShoulderAngle (k : KeypointName → Keypoint) (side : Side) : ℝ :=
  let hip := sideHip k side
  let shoulder := sideShoulder k side
  let elbow := sideElbow k side
  if areKeypointsVisible [hip, shoulder, elbow] then
    calculateAngleBetweenVectors
      (shoulder.x - hip.x, shoulder.y - hip.y)
      (shoulder.x - elbow.x, shoulder.y - elbow.y)
  else 0

/-- Helper `calculateElbowAngle` (shoulder-elbow-wrist). -/
def calculateElbowAngle (k : KeypointName → Keypoint) (side : Side) : ℝ :=
  let shoulder := sideShoulder k side
  let elbow := sideElbow k side
  let wrist := sideWrist k side
  if areKeypointsVisible [shoulder, elbow, wrist] then
    calculateAngleBetweenVectors
      (elbow.x - shoulder.x, elbow.y - shoulder.y)
      (elbow.x - wrist.x, elbow.y - wrist.y)
  else 0

/-- Helper `calculateNeckAngle`: per-landmark higher-confidence side, then
ear-shoulder-hip angle. -/
def calculateNeckAngle (k : KeypointName → Keypoint) : ℝ :=
  let ear := if (k left_ear).confidence > (k right_ear).confidence
    then k left_ear else k right_ear
  let shoulder :=
    if (k left_shoulder).confidence > (k right_shoulder).confidence
    then k left_shoulder else k right_shoulder
  let hip := if (k left_hip).confidence > (k right_hip).confidence
    then k left_hip else k right_hip
  if areKeypointsVisible [ear, shoulder, hip] then
    calculateAngleBetweenVectors
      (shoulder.x - ear.x, shoulder.y - ear.y)
      (shoulder.x - hip.x, shoulder.y - hip.y)
  else 0

/-- Helper `calculateJointAngles`. -/
def calculateJointAngles (k : KeypointName → Keypoint) : JointAngles :=
  { leftHip := calculateHipAngle k .left
    rightHip := calculateHipAngle k .right
    leftKnee := calculateKneeAngle k .left
    rightKnee := calculateKneeAngle k .right
    leftShoulder := calculateShoulderAngle k .left
    rightShoulder := calculateShoulderAngle k .right
    leftElbow := calculateElbowAngle k .left
    rightElbow := calculateElbowAngle k .right
    neck := calculateNeckAngle k }

/-- The `{ angle, confidence }` result of the body-line helpers. -/
structure BodyLine where
  angle : ℝ
  confidence : ℝ

/-- Helper `calculateBodyLineForSide`: deviation from vertical between
shoulder and ankle, confidence = mean of the three keypoints. -/
def calculateBodyLineForSide (k : KeypointName → Keypoint) (side : Side) :
    BodyLine :=
  let shoulder := sideShoulder k side
  let hip := sideHip k side
  let ankle := sideAnkle k side
  if areKeypointsVisible [shoulder, hip, ankle] then
    let dx := ankle.x - shoulder.x
    let dy := ankle.y - shoulder.y
    { angle := atan2 dx dy * (180 / Real.pi)
      confidence :=
        (shoulder.confidence + hip.confidence + ankle.confidence) / 3 }
  else { angle := 0, confidence := 0 }

/-- Helper `calculateBodyLineStraightness`: pick the side with strictly
greater confidence; otherwise the right side. -/
def calculateBodyLineStraightness (k : KeypointName → Keypoint) : BodyLine :=
  let leftSide := calculateBodyLineForSide k .left
  let rightSide := calculateBodyLineForSide k .right
  if leftSide.confidence > rightSide.confidence then leftSide
  else rightSide

/-- Helper `calculateBodyPositions`. -/
def calculateBodyPositions (k : KeypointName → Keypoint) : Positions :=
  { hipHeight := averageY [k left_hip, k right_hip]
    shoulderHeight := averageY [k left_shoulder, k right_shoulder]
    headHeight := averageY [k left_ear, k right_ear]
    leftAnkleHeight :=
      if (k left_ankle).confidence ≥ 0.6 then (k left_ankle).y else 0
    rightAnkleHeight :=
      if (k right_ankle).confidence ≥ 0.6 then (k right_ankle).y else 0 }

/-- Helper `calculateVelocities`: zero without a previous `Features` or with a
non-positive time difference, otherwise difference over seconds. -/
def calculateVelocities (prev : Option Features) (now : ℝ)
    (positions : Positions) (bodyLineAngle : ℝ) : Velocity :=
  match prev with
  | none => { bodyLineAngle := 0, hipHeight := 0, shoulderHeight := 0 }
  | some p =>
    let timeDiff := (now - p.timestamp) / 1000
    if timeDiff ≤ 0 then
      { bodyLineAngle := 0, hipHeight := 0, shoulderHeight := 0 }
    else
      { bodyLineAngle := (bodyLineAngle - p.bodyLineAngle) / timeDiff
        hipHeight := (positions.hipHeight - p.positions.hipHeight) / timeDiff
        shoulderHeight :=
          (positions.shoulderHeight - p.positions.shoulderHeight) / timeDiff }

/-- Helper `calculateStability`. -/
def calculateStability (cfg : FeatureConfig) (v : Velocity) : Stability :=
  let isMoving := |v.bodyLineAngle| > cfg.motionThreshold ∨
    |v.hipHeight| > cfg.motionThreshold ∨
    |v.shoulderHeight| > cfg.motionThreshold
  let maxVelocity := max |v.bodyLineAngle| (max |v.hipHeight| |v.shoulderHeight|)
  { isStable := ¬ isMoving
    stabilityScore := max 0 (1 - maxVelocity / (cfg.motionThreshold * 2))
    motionGate := isMoving }

/-- Helper `calculateVisibility`. -/
def calculateVisibility (k : KeypointName → Keypoint) : Visibility :=
  let visibleCount :=
    (keypointNames.filter fun name => (k name).confidence ≥ 0.6).length
  let overall := (visibleCount : ℝ) / (keypointNames.length : ℝ)
  { overall := overall
    criticalPoints :=
      { shoulders :=
          ((k left_shoulder).confidence + (k right_shoulder).confidence) / 2
        hips := ((k left_hip).confidence + (k right_hip).confidence) / 2
        ankles := ((k left_ankle).confidence + (k right_ankle).confidence) / 2 }
    hasMinimumVisibility := overall ≥ 0.5 }

/-- Helper `smoothValue`: exponential moving average. -/
def smoothValue (current previous alpha : ℝ) : ℝ :=
  alpha * current + (1 - alpha) * previous

/-- Helper `applySmoothing`: smooth the nine joint angles and the body-line
angle against the previous `Features`; all other fields unchanged. -/
def applySmoothing (alpha : ℝ) (prev f : Features) : Features :=
  { f with
    angles :=
      { leftHip := smoothValue f.angles.leftHip prev.angles.leftHip alpha
        rightHip := smoothValue f.angles.rightHip prev.angles.rightHip alpha
        leftKnee := smoothValue f.angles.leftKnee prev.angles.leftKnee alpha
        rightKnee := smoothValue f.angles.rightKnee prev.angles.rightKnee alpha
        leftShoulder :=
          smoothValue f.angles.leftShoulder prev.angles.leftShoulder alpha
        rightShoulder :=
          smoothValue f.angles.rightShoulder prev.angles.rightShoulder alpha
        leftElbow := smoothValue f.angles.leftElbow prev.angles.leftElbow alpha
        rightElbow :=
          smoothValue f.angles.rightElbow prev.angles.rightElbow alpha
        neck := smoothValue f.angles.neck prev.angles.neck alpha }
    bodyLineAngle := smoothValue f.bodyLineAngle prev.bodyLineAngle alpha }

/-- The `Features` value built by one `calculateFeatures` call, before
smoothing. -/
def rawFeatures (cfg : FeatureConfig) (prev : Option Features) (now : ℝ)
    (pose : Pose) : Features :=
  let k := pose.keypoints
  let angles := calculateJointAngles k
  let bodyLineData := calculateBodyLineStraightness k
  let positions := calculateBodyPositions k
  let velocity := calculateVelocities prev now positions bodyLineData.angle
  { bodyLineAngle := bodyLineData.angle
    bodyLineConfidence := bodyLineData.confidence
    angles := angles
    positions := positions
    velocity := velocity
    stability := calculateStability cfg velocity
    visibility := calculateVisibility k
    timestamp := pose.timestamp
    frameId := pose.frameId }

/-- One `calculateFeatures` call: raw features, then smoothing when
`smoothingFactor > 0` and a previous `Features` is stored. -/
def featureStep (cfg : FeatureConfig) (prev : Option Features) (now : ℝ)
    (pose : Pose) : Features :=
  let features := rawFeatures cfg prev now pose
  match prev with
  | some p =>
    if cfg.smoothingFactor > 0 then applySmoothing cfg.smoothingFactor p features
    else features
  | none => features

/-- Method `calculateFeatures` with its `ServiceResponse` wrapper and the
`previousFeatures := { ...features }` state update. -/
def calculateFeatures (cfg : FeatureConfig) (prev : Option Features)
    (now : ℝ) (pose : Pose) : ServiceResponse Features × Option Features :=
  let features := featureStep cfg prev now pose
  (ServiceResponse.ok features now, some features)

/-- Method `reset()`: clear the stored previous `Features`. -/
def reset (_prev : Option Features) : Option Features := none

/-! ## Claim theorems -/

/-- C3: the vector-angle helper computes dot over magnitude product,
clamps to [-1,1] before the inverse cosine, returns degrees in
[0, 180], and returns 0 instead of dividing when a magnitude is zero. -/
theorem angle_between_vectors_spec (v1 v2 : ℝ × ℝ) :
    (0 ≤ calculateAngleBetweenVectors v1 v2 ∧
      calculateAngleBetweenVectors v1 v2 ≤ 180) ∧
    (magnitude v1 = 0 ∨ magnitude v2 = 0 →
      calculateAngleBetweenVectors v1 v2 = 0) ∧
    (magnitude v1 ≠ 0 → magnitude v2 ≠ 0 →
      calculateAngleBetweenVectors v1 v2 =
        Real.arccos (max (-1) (min 1
          ((v1.1 * v2.1 + v1.2 * v2.2) / (magnitude v1 * magnitude v2)))) *
          (180 / Real.pi)) := by
  unfold calculateAngleBetweenVectors
  by_cases h : magnitude v1 = 0 ∨ magnitude v2 = 0
  · rw [if_pos h]
    refine ⟨⟨le_refl 0, by norm_num⟩, fun _ => rfl, fun h1 h2 => ?_⟩
    rcases h with h | h
    · exact absurd h h1
    · exact absurd h h2
  · rw [if_neg h]
    push_neg at h
    refine ⟨⟨?_, ?_⟩, fun hc => ?_, fun _ _ => rfl⟩
    · exact mul_nonneg (Real.arccos_nonneg _)
        (div_nonneg (by norm_num) Real.pi_pos.le)
    · calc Real.arccos _ * (180 / Real.pi)
          ≤ Real.pi * (180 / Real.pi) :=
            mul_le_mul_of_nonneg_right (Real.arccos_le_pi _)
              (div_nonneg (by norm_num) Real.pi_pos.le)
        _ = 180 := by
            field_simp
    · rcases hc with hc | hc
      · exact absurd hc h.1
      · exact absurd hc h.2

/-- Witness for C3 at a concrete zero-magnitude vector. -/
theorem angle_between_vectors_spec_witness :
    magnitude ((0 : ℝ), (0 : ℝ)) = 0 ∧
      calculateAngleBetweenVectors ((0 : ℝ), (0 : ℝ)) ((1 : ℝ), (0 : ℝ)) = 0 := by
  have h : magnitude ((0 : ℝ), (0 : ℝ)) = 0 := by
    simp [magnitude]
  exact ⟨h, (angle_between_vectors_spec ((0 : ℝ), (0 : ℝ)) ((1 : ℝ), (0 : ℝ))).2.1
    (Or.inl h)⟩

/-- C4: with a stored previous `Features`, each velocity is the value
difference divided by the elapsed seconds, and whenever the elapsed
time is ≤ 0 every velocity component is 0. -/
theorem velocities_spec (p : Features) (now : ℝ) (pos : Positions) (bl : ℝ) :
    (0 < (now - p.timestamp) / 1000 →
      calculateVelocities (some p) now pos bl =
        { bodyLineAngle :=
            (bl - p.bodyLineAngle) / ((now - p.timestamp) / 1000)
          hipHeight :=
            (pos.hipHeight - p.positions.hipHeight) /
              ((now - p.timestamp) / 1000)
          shoulderHeight :=
            (pos.shoulderHeight - p.positions.shoulderHeight) /
              ((now - p.timestamp) / 1000) }) ∧
    ((now - p.timestamp) / 1000 ≤ 0 →
      calculateVelocities (some p) now pos bl =
        { bodyLineAngle := 0, hipHeight := 0, shoulderHeight := 0 }) := by
  constructor
  · intro h
    simp only [calculateVelocities]
    rw [if_neg (not_le.mpr h)]
  · intro h
    simp only [calculateVelocities]
    rw [if_pos h]

/-- A concrete previous `Features` value used by witnesses. -/
def prevW : Features :=
  { bodyLineAngle := 10
    bodyLineConfidence := 0.9
    angles :=
      { leftHip := 90, rightHip := 0, leftKnee := 0, rightKnee := 0
        leftShoulder := 0, rightShoulder := 0, leftElbow := 0
        rightElbow := 0, neck := 0 }
    positions :=
      { hipHeight := 50, shoulderHeight := 30, headHeight := 10
        leftAnkleHeight := 90, rightAnkleHeight := 90 }
    velocity := { bodyLineAngle := 0, hipHeight := 0, shoulderHeight := 0 }
    stability := { isStable := True, stabilityScore := 1, motionGate := False }
    visibility :=
      { overall := 1
        criticalPoints := { shoulders := 1, hips := 1, ankles := 1 }
        hasMinimumVisibility := True }
    timestamp := 1000
    frameId := 0 }

/-- Witness for C4 at a concrete previous-`Features`/time pair. -/
theorem velocities_spec_witness :
    0 < ((2000 : ℝ) - prevW.timestamp) / 1000 ∧
      calculateVelocities (some prevW) 2000
          { hipHeight := 60, shoulderHeight := 30, headHeight := 10
            leftAnkleHeight := 90, rightAnkleHeight := 90 } 20 =
        { bodyLineAngle :=
            (20 - prevW.bodyLineAngle) / (((2000 : ℝ) - prevW.timestamp) / 1000)
          hipHeight :=
            ((60 : ℝ) - prevW.positions.hipHeight) /
              (((2000 : ℝ) - prevW.timestamp) / 1000)
          shoulderHeight :=
            ((30 : ℝ) - prevW.positions.shoulderHeight) /
              (((2000 : ℝ) - prevW.timestamp) / 1000) } := by
  have h : 0 < ((2000 : ℝ) - prevW.timestamp) / 1000 := by
    norm_num [prevW]
  exact ⟨h, (velocities_spec prevW 2000 _ 20).1 h⟩

/-- C5: `isStable` holds iff no tracked velocity exceeds the motion
threshold, `motionGate` is its negation, and the stability score is
clamp(1 − maxVelocity/(2·threshold), 0, 1). -/
theorem stability_spec (cfg : FeatureConfig) (v : Velocity)
    (h : 0 < cfg.motionThreshold) :
    ((calculateStability cfg v).isStable ↔
      |v.bodyLineAngle| ≤ cfg.motionThreshold ∧
        |v.hipHeight| ≤ cfg.motionThreshold ∧
        |v.shoulderHeight| ≤ cfg.motionThreshold) ∧
    ((calculateStability cfg v).motionGate ↔
      ¬ (calculateStability cfg v).isStable) ∧
    (calculateStability cfg v).stabilityScore =
      min 1 (max 0 (1 -
        max |v.bodyLineAngle| (max |v.hipHeight| |v.shoulderHeight|) /
          (2 * cfg.motionThreshold))) := by
  unfold calculateStability
  refine ⟨?_, ?_, ?_⟩
  · constructor
    · intro hs
      push_neg at hs
      exact hs
    · intro hs
      push_neg
      exact hs
  · exact not_not.symm
  · have hm : 0 ≤ max |v.bodyLineAngle| (max |v.hipHeight| |v.shoulderHeight|) :=
      le_trans (abs_nonneg _) (le_max_left _ _)
    have hle : 1 -
        max |v.bodyLineAngle| (max |v.hipHeight| |v.shoulderHeight|) /
          (cfg.motionThreshold * 2) ≤ 1 :=
      sub_le_self 1 (div_nonneg hm (by positivity))
    rw [mul_comm 2 cfg.motionThreshold,
      min_eq_right (max_le zero_le_one hle)]

/-- Witness for C5 at the default configuration and zero velocity. -/
theorem stability_spec_witness :
    0 < defaultConfig.motionThreshold ∧
      ((calculateStability defaultConfig
          { bodyLineAngle := 0, hipHeight := 0, shoulderHeight := 0 }).isStable ↔
        |(0 : ℝ)| ≤ defaultConfig.motionThreshold ∧
          |(0 : ℝ)| ≤ defaultConfig.motionThreshold ∧
          |(0 : ℝ)| ≤ defaultConfig.motionThreshold) ∧
      ((calculateStability defaultConfig
          { bodyLineAngle := 0, hipHeight := 0, shoulderHeight := 0 }).motionGate ↔
        ¬ (calculateStability defaultConfig
          { bodyLineAngle := 0, hipHeight := 0, shoulderHeight := 0 }).isStable) ∧
      (calculateStability defaultConfig
          { bodyLineAngle := 0, hipHeight := 0, shoulderHeight := 0 }).stabilityScore =
        min 1 (max 0 (1 -
          max |(0 : ℝ)| (max |(0 : ℝ)| |(0 : ℝ)|) /
            (2 * defaultConfig.motionThreshold))) := by
  have h : 0 < defaultConfig.motionThreshold := by
    norm_num [defaultConfig]
  exact ⟨h, stability_spec defaultConfig
    { bodyLineAngle := 0, hipHeight := 0, shoulderHeight := 0 } h⟩

/-- Value of `averageY` on a two-element list, written out by visibility cases. -/
lemma averageY_pair (a b : Keypoint) :
    averageY [a, b] =
      if 0.6 ≤ a.confidence then
        if 0.6 ≤ b.confidence then (a.y + b.y) / 2 else a.y
      else if 0.6 ≤ b.confidence then b.y else 0 := by
  unfold averageY
  rcases le_or_lt (0.6 : ℝ) a.confidence with ha | ha <;>
    rcases le_or_lt (0.6 : ℝ) b.confidence with hb | hb <;>
      simp [List.filter_cons, List.filter_nil, ha, hb, not_le.mpr, ge_iff_le,
        not_le]

/-- Lemma: `averageY` of a pair only reads the y of keypoints at or above the
0.6 confidence threshold. -/
lemma averageY_pair_congr (a b a' b' : Keypoint)
    (hac : a.confidence = a'.confidence) (hbc : b.confidence = b'.confidence)
    (hay : 0.6 ≤ a.confidence → a.y = a'.y)
    (hby : 0.6 ≤ b.confidence → b.y = b'.y) :
    averageY [a, b] = averageY [a', b'] := by
  rw [averageY_pair, averageY_pair, ← hac, ← hbc]
  split_ifs with h1 h2 h2
  · rw [hay h1, hby h2]
  · rw [hay h1]
  · rw [hby h2]
  · rfl

/-- C9: the overall visibility score is the number of named keypoints
at or above 0.6 confidence divided by the total number (21) of named
keypoints, the critical-points subset scores are exposed, and the
minimum-visibility flag is the overall score reaching 0.5. -/
theorem visibility_spec (k : KeypointName → Keypoint) :
    keypointNames.Nodup ∧ (∀ n : KeypointName, n ∈ keypointNames) ∧
    (calculateVisibility k).overall =
      ((Finset.univ.filter fun n : KeypointName =>
        (k n).confidence ≥ 0.6).card : ℝ) / 21 ∧
    (calculateVisibility k).criticalPoints =
      { shoulders :=
          ((k left_shoulder).confidence + (k right_shoulder).confidence) / 2
        hips := ((k left_hip).confidence + (k right_hip).confidence) / 2
        ankles :=
          ((k left_ankle).confidence + (k right_ankle).confidence) / 2 } ∧
    ((calculateVisibility k).hasMinimumVisibility ↔
      0.5 ≤ (calculateVisibility k).overall) := by
  have hnd : keypointNames.Nodup := by decide
  have hmem : ∀ n : KeypointName, n ∈ keypointNames := by decide
  refine ⟨hnd, hmem, ?_, rfl, Iff.rfl⟩
  have hset : (keypointNames.filter fun n => (k n).confidence ≥ 0.6).toFinset =
      Finset.univ.filter fun n : KeypointName => (k n).confidence ≥ 0.6 := by
    ext n
    simp [List.mem_filter, hmem n]
  have hcard : ((keypointNames.filter fun n =>
        (k n).confidence ≥ 0.6).length : ℝ) =
      ((Finset.univ.filter fun n : KeypointName =>
        (k n).confidence ≥ 0.6).card : ℝ) := by
    rw [← hset, List.toFinset_card_of_nodup (hnd.filter _)]
  simp only [calculateVisibility]
  rw [hcard]
  norm_num [keypointNames]

/-- The predicate of C10: two keypoint records with the same
confidences that agree on the y of every visible (≥ 0.6) keypoint. -/
def visibleAgree (k k' : KeypointName → Keypoint) : Prop :=
  ∀ n : KeypointName, (k n).confidence = (k' n).confidence ∧
    (0.6 ≤ (k n).confidence → (k n).y = (k' n).y)

/-- C10: body positions are computed only from keypoints at or above
the 0.6 confidence threshold (changing invisible keypoints' coordinates
cannot change them), each position is 0 when no contributing keypoint
is visible, and visible contributors are averaged. -/
theorem positions_visible_only_spec (k k' : KeypointName → Keypoint) :
    (visibleAgree k k' →
      calculateBodyPositions k = calculateBodyPositions k') ∧
    ((k left_hip).confidence < 0.6 → (k right_hip).confidence < 0.6 →
      (calculateBodyPositions k).hipHeight = 0) ∧
    ((k left_shoulder).confidence < 0.6 →
      (k right_shoulder).confidence < 0.6 →
      (calculateBodyPositions k).shoulderHeight = 0) ∧
    ((k left_ear).confidence < 0.6 → (k right_ear).confidence < 0.6 →
      (calculateBodyPositions k).headHeight = 0) ∧
    ((k left_ankle).confidence < 0.6 →
      (calculateBodyPositions k).leftAnkleHeight = 0) ∧
    ((k right_ankle).confidence < 0.6 →
      (calculateBodyPositions k).rightAnkleHeight = 0) ∧
    (0.6 ≤ (k left_hip).confidence → 0.6 ≤ (k right_hip).confidence →
      (calculateBodyPositions k).hipHeight =
        ((k left_hip).y + (k right_hip).y) / 2) ∧
    (0.6 ≤ (k left_hip).confidence → (k right_hip).confidence < 0.6 →
      (calculateBodyPositions k).hipHeight = (k left_hip).y) := by
  refine ⟨?_, ?_, ?_, ?_, ?_, ?_, ?_, ?_⟩
  · intro h
    simp only [calculateBodyPositions, Positions.mk.injEq]
    refine ⟨?_, ?_, ?_, ?_, ?_⟩
    · exact averageY_pair_congr _ _ _ _ (h left_hip).1 (h right_hip).1
        (h left_hip).2 (h right_hip).2
    · exact averageY_pair_congr _ _ _ _ (h left_shoulder).1
        (h right_shoulder).1 (h left_shoulder).2 (h right_shoulder).2
    · exact averageY_pair_congr _ _ _ _ (h left_ear).1 (h right_ear).1
        (h left_ear).2 (h right_ear).2
    · rw [← (h left_ankle).1]
      split_ifs with hv
      · exact (h left_ankle).2 hv
      · rfl
    · rw [← (h right_ankle).1]
      split_ifs with hv
      · exact (h right_ankle).2 hv
      · rfl
  · intro h1 h2
    show averageY [k left_hip, k right_hip] = 0
    rw [averageY_pair, if_neg (not_le.mpr h1), if_neg (not_le.mpr h2)]
  · intro h1 h2
    show averageY [k left_shoulder, k right_shoulder] = 0
    rw [averageY_pair, if_neg (not_le.mpr h1), if_neg (not_le.mpr h2)]
  · intro h1 h2
    show averageY [k left_ear, k right_ear] = 0
    rw [averageY_pair, if_neg (not_le.mpr h1), if_neg (not_le.mpr h2)]
  · intro h1
    show (if (k left_ankle).confidence ≥ 0.6 then (k left_ankle).y else 0) = 0
    rw [if_neg (not_le.mpr h1)]
  · intro h1
    show (if (k right_ankle).confidence ≥ 0.6 then (k right_ankle).y else 0) = 0
    rw [if_neg (not_le.mpr h1)]
  · intro h1 h2
    show averageY [k left_hip, k right_hip] = _
    rw [averageY_pair, if_pos h1, if_pos h2]
  · intro h1 h2
    show averageY [k left_hip, k right_hip] = _
    rw [averageY_pair, if_pos h1, if_neg (not_le.mpr h2)]

/-- An all-invisible keypoint record at the origin. -/
def kA : KeypointName → Keypoint := fun _ => { x := 0, y := 0, confidence := 0 }

/-- An all-invisible keypoint record at another location. -/
def kB : KeypointName → Keypoint := fun _ => { x := 5, y := 7, confidence := 0 }

/-- Witness for C10: two concrete records differing only on invisible
keypoints produce the same body positions. -/
theorem positions_visible_only_spec_witness :
    visibleAgree kA kB ∧ calculateBodyPositions kA = calculateBodyPositions kB := by
  have h : visibleAgree kA kB := by
    intro n
    refine ⟨rfl, fun hc => ?_⟩
    norm_num [kA] at hc
  exact ⟨h, (positions_visible_only_spec kA kB).1 h⟩

/-- Unfolding `featureStep` when a previous `Features` is stored and
smoothing is enabled. -/
lemma featureStep_some (cfg : FeatureConfig) (p : Features) (now : ℝ)
    (pose : Pose) (h : 0 < cfg.smoothingFactor) :
    featureStep cfg (some p) now pose =
      applySmoothing cfg.smoothingFactor p
        (rawFeatures cfg (some p) now pose) := by
  simp only [featureStep]
  rw [if_pos h]

/-- Unfolding `featureStep` without a previous `Features`. -/
lemma featureStep_none (cfg : FeatureConfig) (now : ℝ) (pose : Pose) :
    featureStep cfg none now pose = rawFeatures cfg none now pose := rfl

/-- A pose in which every keypoint has confidence 0. -/
def poseZero : Pose := { keypoints := kA, timestamp := 0, frameId := 0 }

/-- C2: `calculateFeatures` is total — it always takes the success
branch (the catch branch is unreachable), and every angle / body-line
helper returns the neutral value 0 whenever a keypoint it needs is
below the 0.6 visibility threshold. -/
theorem calculateFeatures_total_and_neutral (cfg : FeatureConfig)
    (prev : Option Features) (now : ℝ) (pose : Pose) :
    calculateFeatures cfg prev now pose =
      (ServiceResponse.ok (featureStep cfg prev now pose) now,
        some (featureStep cfg prev now pose)) ∧
    (∀ side, ¬ areKeypointsVisible
        [sideHip pose.keypoints side, sideKnee pose.keypoints side,
          sideAnkle pose.keypoints side] →
      calculateHipAngle pose.keypoints side = 0 ∧
        calculateKneeAngle pose.keypoints side = 0) ∧
    (∀ side, ¬ areKeypointsVisible
        [sideHip pose.keypoints side, sideShoulder pose.keypoints side,
          sideElbow pose.keypoints side] →
      calculateShoulderAngle pose.keypoints side = 0) ∧
    (∀ side, ¬ areKeypointsVisible
        [sideShoulder pose.keypoints side, sideElbow pose.keypoints side,
          sideWrist pose.keypoints side] →
      calculateElbowAngle pose.keypoints side = 0) ∧
    ((pose.keypoints left_ear).confidence < 0.6 →
      (pose.keypoints right_ear).confidence < 0.6 →
      calculateNeckAngle pose.keypoints = 0) ∧
    (∀ side, ¬ areKeypointsVisible
        [sideShoulder pose.keypoints side, sideHip pose.keypoints side,
          sideAnkle pose.keypoints side] →
      calculateBodyLineForSide pose.keypoints side =
        { angle := 0, confidence := 0 }) := by
  refine ⟨rfl, ?_, ?_, ?_, ?_, ?_⟩
  · intro side h
    constructor
    · simp only [calculateHipAngle]
      rw [if_neg h]
    · simp only [calculateKneeAngle]
      rw [if_neg h]
  · intro side h
    simp only [calculateShoulderAngle]
    rw [if_neg h]
  · intro side h
    simp only [calculateElbowAngle]
    rw [if_neg h]
  · intro h1 h2
    simp only [calculateNeckAngle]
    set ear := if (pose.keypoints left_ear).confidence >
        (pose.keypoints right_ear).confidence
      then pose.keypoints left_ear else pose.keypoints right_ear with hear_def
    set sh := if (pose.keypoints left_shoulder).confidence >
        (pose.keypoints right_shoulder).confidence
      then pose.keypoints left_shoulder else pose.keypoints right_shoulder
    set hp := if (pose.keypoints left_hip).confidence >
        (pose.keypoints right_hip).confidence
      then pose.keypoints left_hip else pose.keypoints right_hip
    have hear : ear.confidence < 0.6 := by
      rw [hear_def]
      split_ifs
      · exact h1
      · exact h2
    have hnv : ¬ areKeypointsVisible [ear, sh, hp] := fun hvv =>
      absurd (hvv ear (List.mem_cons_self _ _)) (not_le.mpr hear)
    rw [if_neg hnv]
  · intro side h
    simp only [calculateBodyLineForSide]
    rw [if_neg h]

/-- Witness for C2 at a pose with every keypoint at confidence 0. -/
theorem calculateFeatures_total_and_neutral_witness :
    ¬ areKeypointsVisible
      [sideHip poseZero.keypoints .left, sideKnee poseZero.keypoints .left,
        sideAnkle poseZero.keypoints .left] ∧
    calculateHipAngle poseZero.keypoints .left = 0 := by
  have h : ¬ areKeypointsVisible
      [sideHip poseZero.keypoints .left, sideKnee poseZero.keypoints .left,
        sideAnkle poseZero.keypoints .left] := by
    intro hv
    have hkp := hv _ (List.mem_cons_self _ _)
    norm_num [poseZero, kA, sideHip] at hkp
  exact ⟨h, ((calculateFeatures_total_and_neutral defaultConfig none 0
    poseZero).2.1 .left h).1⟩

/-- What one smoothed `calculateFeatures` call reports relative to the
raw (unsmoothed) features of the same call: EMA on the nine joint
angles and the body-line angle, every other field unchanged. -/
def SmoothingEffect (cfg : FeatureConfig) (p : Features) (now : ℝ)
    (pose : Pose) : Prop :=
  (featureStep cfg (some p) now pose).angles.leftHip =
      cfg.smoothingFactor * (rawFeatures cfg (some p) now pose).angles.leftHip +
        (1 - cfg.smoothingFactor) * p.angles.leftHip ∧
  (featureStep cfg (some p) now pose).angles.rightHip =
      cfg.smoothingFactor * (rawFeatures cfg (some p) now pose).angles.rightHip +
        (1 - cfg.smoothingFactor) * p.angles.rightHip ∧
  (featureStep cfg (some p) now pose).angles.leftKnee =
      cfg.smoothingFactor * (rawFeatures cfg (some p) now pose).angles.leftKnee +
        (1 - cfg.smoothingFactor) * p.angles.leftKnee ∧
  (featureStep cfg (some p) now pose).angles.rightKnee =
      cfg.smoothingFactor * (rawFeatures cfg (some p) now pose).angles.rightKnee +
        (1 - cfg.smoothingFactor) * p.angles.rightKnee ∧
  (featureStep cfg (some p) now pose).angles.leftShoulder =
      cfg.smoothingFactor *
          (rawFeatures cfg (some p) now pose).angles.leftShoulder +
        (1 - cfg.smoothingFactor) * p.angles.leftShoulder ∧
  (featureStep cfg (some p) now pose).angles.rightShoulder =
      cfg.smoothingFactor *
          (rawFeatures cfg (some p) now pose).angles.rightShoulder +
        (1 - cfg.smoothingFactor) * p.angles.rightShoulder ∧
  (featureStep cfg (some p) now pose).angles.leftElbow =
      cfg.smoothingFactor * (rawFeatures cfg (some p) now pose).angles.leftElbow +
        (1 - cfg.smoothingFactor) * p.angles.leftElbow ∧
  (featureStep cfg (some p) now pose).angles.rightElbow =
      cfg.smoothingFactor * (rawFeatures cfg (some p) now pose).angles.rightElbow +
        (1 - cfg.smoothingFactor) * p.angles.rightElbow ∧
  (featureStep cfg (some p) now pose).angles.neck =
      cfg.smoothingFactor * (rawFeatures cfg (some p) now pose).angles.neck +
        (1 - cfg.smoothingFactor) * p.angles.neck ∧
  (featureStep cfg (some p) now pose).bodyLineAngle =
      cfg.smoothingFactor * (rawFeatures cfg (some p) now pose).bodyLineAngle +
        (1 - cfg.smoothingFactor) * p.bodyLineAngle ∧
  (featureStep cfg (some p) now pose).bodyLineConfidence =
      (rawFeatures cfg (some p) now pose).bodyLineConfidence ∧
  (featureStep cfg (some p) now pose).positions =
      (rawFeatures cfg (some p) now pose).positions ∧
  (featureStep cfg (some p) now pose).velocity =
      (rawFeatures cfg (some p) now pose).velocity ∧
  (featureStep cfg (some p) now pose).stability =
      (rawFeatures cfg (some p) now pose).stability ∧
  (featureStep cfg (some p) now pose).visibility =
      (rawFeatures cfg (some p) now pose).visibility ∧
  (featureStep cfg (some p) now pose).timestamp = pose.timestamp ∧
  (featureStep cfg (some p) now pose).frameId = pose.frameId

/-- C7: with smoothing enabled and a previous `Features` stored, the
returned features are the raw ones with EMA
`α·current + (1−α)·previous` applied to the nine joint angles and the
body-line angle only; positions, velocity, stability, visibility,
timestamp and frame id are unchanged by smoothing. -/
theorem smoothing_affects_only_angles (cfg : FeatureConfig) (p : Features)
    (now : ℝ) (pose : Pose) (h : 0 < cfg.smoothingFactor) :
    SmoothingEffect cfg p now pose := by
  unfold SmoothingEffect
  rw [featureStep_some cfg p now pose h]
  exact ⟨rfl, rfl, rfl, rfl, rfl, rfl, rfl, rfl, rfl, rfl, rfl, rfl, rfl,
    rfl, rfl, rfl, rfl⟩

/-- Witness for C7 at the default configuration. -/
theorem smoothing_affects_only_angles_witness :
    0 < defaultConfig.smoothingFactor ∧
      SmoothingEffect defaultConfig prevW 1500 poseZero := by
  have h : 0 < defaultConfig.smoothingFactor := by norm_num [defaultConfig]
  exact ⟨h, smoothing_affects_only_angles defaultConfig prevW 1500 poseZero h⟩

/-- C8: after `reset()` the next `calculateFeatures` call reports zero
velocity for all tracked scalars, applies no smoothing (the output is
the raw features), and its output does not depend on any state from
before the reset nor on the wall-clock time. -/
theorem reset_first_frame_spec (cfg : FeatureConfig) (s : Option Features)
    (now : ℝ) (pose : Pose) :
    featureStep cfg (reset s) now pose = rawFeatures cfg none now pose ∧
    (featureStep cfg (reset s) now pose).velocity =
      { bodyLineAngle := 0, hipHeight := 0, shoulderHeight := 0 } ∧
    (∀ (s' : Option Features) (now' : ℝ),
      featureStep cfg (reset s) now pose =
        featureStep cfg (reset s') now' pose) := by
  exact ⟨rfl, rfl, fun s' now' => rfl⟩

/-- Degrees of `atan2 1 1`. -/
lemma atan2_one_one_deg : atan2 1 1 * (180 / Real.pi) = 45 := by
  unfold atan2
  rw [if_pos (by norm_num : (0 : ℝ) < 1)]
  norm_num [Real.arctan_one]
  field_simp
  ring

/-- Degrees of `atan2 0 1`. -/
lemma atan2_zero_one_deg : atan2 0 1 * (180 / Real.pi) = 0 := by
  unfold atan2
  rw [if_pos (by norm_num : (0 : ℝ) < 1)]
  norm_num [Real.arctan_zero]

/-- Keypoints with equal mean side confidence (0.8 on both sides) but a
higher left-ankle confidence, and different body-line angles per side. -/
def kC6 : KeypointName → Keypoint
  | left_shoulder => { x := 0, y := 0, confidence := 0.8 }
  | left_hip => { x := 0, y := 0.5, confidence := 0.7 }
  | left_ankle => { x := 1, y := 1, confidence := 0.9 }
  | right_shoulder => { x := 0, y := 0, confidence := 0.8 }
  | right_hip => { x := 0, y := 0.5, confidence := 0.8 }
  | right_ankle => { x := 0, y := 1, confidence := 0.8 }
  | _ => { x := 0, y := 0, confidence := 0 }

/-- The left body line of `kC6`. -/
lemma bodyline_left_kC6 :
    calculateBodyLineForSide kC6 .left = { angle := 45, confidence := 0.8 } := by
  have hvis : areKeypointsVisible
      [sideShoulder kC6 .left, sideHip kC6 .left, sideAnkle kC6 .left] := by
    simp only [areKeypointsVisible, sideShoulder, sideHip, sideAnkle, kC6,
      List.mem_cons, List.not_mem_nil, or_false, forall_eq_or_imp, forall_eq]
    norm_num
  simp only [calculateBodyLineForSide]
  rw [if_pos hvis]
  simp only [sideShoulder, sideHip, sideAnkle, kC6]
  have h1 : (1 : ℝ) - 0 = 1 := by norm_num
  rw [h1]
  simp only [BodyLine.mk.injEq]
  constructor
  · exact atan2_one_one_deg
  · norm_num

/-- The right body line of `kC6`. -/
lemma bodyline_right_kC6 :
    calculateBodyLineForSide kC6 .right = { angle := 0, confidence := 0.8 } := by
  have hvis : areKeypointsVisible
      [sideShoulder kC6 .right, sideHip kC6 .right, sideAnkle kC6 .right] := by
    simp only [areKeypointsVisible, sideShoulder, sideHip, sideAnkle, kC6,
      List.mem_cons, List.not_mem_nil, or_false, forall_eq_or_imp, forall_eq]
    norm_num
  simp only [calculateBodyLineForSide]
  rw [if_pos hvis]
  simp only [sideShoulder, sideHip, sideAnkle, kC6]
  have h1 : (0 : ℝ) - 0 = 0 := by norm_num
  have h2 : (1 : ℝ) - 0 = 1 := by norm_num
  rw [h1, h2]
  simp only [BodyLine.mk.injEq]
  constructor
  · exact atan2_zero_one_deg
  · norm_num

/-- C6 counterexample: at `kC6` the two sides' mean confidences are
equal and the left ankle has the higher confidence, so the claim
predicts the left side (angle 45°); the code returns the right side
(angle 0°) — ties are not broken by ankle confidence. -/
theorem bodyline_tie_ignores_ankle_counterexample :
    (calculateBodyLineForSide kC6 .left).confidence =
      (calculateBodyLineForSide kC6 .right).confidence ∧
    (kC6 left_ankle).confidence > (kC6 right_ankle).confidence ∧
    (calculateBodyLineForSide kC6 .left).angle = 45 ∧
    calculateBodyLineStraightness kC6 = calculateBodyLineForSide kC6 .right ∧
    (calculateBodyLineStraightness kC6).angle = 0 := by
  have hsel : calculateBodyLineStraightness kC6 =
      calculateBodyLineForSide kC6 .right := by
    simp only [calculateBodyLineStraightness]
    rw [if_neg]
    rw [bodyline_left_kC6, bodyline_right_kC6]
    norm_num
  refine ⟨?_, ?_, ?_, hsel, ?_⟩
  · rw [bodyline_left_kC6, bodyline_right_kC6]
  · simp only [kC6]
    norm_num
  · rw [bodyline_left_kC6]
  · rw [hsel, bodyline_right_kC6]

/-- C6 amended: the body line is taken from the side whose reported
confidence (mean of shoulder/hip/ankle when all three are at or above
0.6, else 0) is strictly greater; when the left side's confidence is
not strictly greater — including exact ties, regardless of ankle
confidence — the right side is used. On a visible side the angle is the
`atan2(dx, dy)` deviation from vertical between shoulder and ankle. -/
theorem bodyline_side_selection_spec (k : KeypointName → Keypoint) :
    ((calculateBodyLineForSide k .left).confidence >
        (calculateBodyLineForSide k .right).confidence →
      calculateBodyLineStraightness k = calculateBodyLineForSide k .left) ∧
    ((calculateBodyLineForSide k .left).confidence ≤
        (calculateBodyLineForSide k .right).confidence →
      calculateBodyLineStraightness k = calculateBodyLineForSide k .right) ∧
    (∀ side, areKeypointsVisible
        [sideShoulder k side, sideHip k side, sideAnkle k side] →
      (calculateBodyLineForSide k side).angle =
        atan2 ((sideAnkle k side).x - (sideShoulder k side).x)
          ((sideAnkle k side).y - (sideShoulder k side).y) *
          (180 / Real.pi) ∧
      (calculateBodyLineForSide k side).confidence =
        ((sideShoulder k side).confidence + (sideHip k side).confidence +
          (sideAnkle k side).confidence) / 3) ∧
    (∀ side, ¬ areKeypointsVisible
        [sideShoulder k side, sideHip k side, sideAnkle k side] →
      calculateBodyLineForSide k side = { angle := 0, confidence := 0 }) := by
  refine ⟨?_, ?_, ?_, ?_⟩
  · intro h
    simp only [calculateBodyLineStraightness]
    rw [if_pos h]
  · intro h
    simp only [calculateBodyLineStraightness]
    rw [if_neg (not_lt.mpr h)]
  · intro side hvis
    simp only [calculateBodyLineForSide]
    rw [if_pos hvis]
    exact ⟨rfl, rfl⟩
  · intro side h
    simp only [calculateBodyLineForSide]
    rw [if_neg h]

/-- Witness for C6 (amended) at `kC6`: equal confidences select the
right side. -/
theorem bodyline_side_selection_spec_witness :
    (calculateBodyLineForSide kC6 .left).confidence ≤
      (calculateBodyLineForSide kC6 .right).confidence ∧
    calculateBodyLineStraightness kC6 = calculateBodyLineForSide kC6 .right := by
  have h : (calculateBodyLineForSide kC6 .left).confidence ≤
      (calculateBodyLineForSide kC6 .right).confidence := by
    rw [bodyline_left_kC6, bodyline_right_kC6]
  exact ⟨h, (bodyline_side_selection_spec kC6).2.1 h⟩

/-- Right angle between the unit axes, in degrees. -/
lemma angle_perp_deg :
    calculateAngleBetweenVectors ((1 : ℝ), (0 : ℝ)) ((0 : ℝ), (1 : ℝ)) = 90 := by
  have m1 : magnitude ((1 : ℝ), (0 : ℝ)) = 1 := by
    simp [magnitude]
  have m2 : magnitude ((0 : ℝ), (1 : ℝ)) = 1 := by
    simp [magnitude]
  simp only [calculateAngleBetweenVectors, m1, m2]
  rw [if_neg (by norm_num : ¬((1 : ℝ) = 0 ∨ (1 : ℝ) = 0))]
  rw [show max (-1 : ℝ) (min 1 ((1 * 0 + 0 * 1) / (1 * 1))) = 0 by
    norm_num]
  rw [Real.arccos_zero]
  field_simp
  ring

/-- Keypoints for a fully visible left hip-knee-ankle right angle. -/
def kP1 : KeypointName → Keypoint
  | left_hip => { x := 1, y := 0, confidence := 0.9 }
  | left_knee => { x := 0, y := 0, confidence := 0.9 }
  | left_ankle => { x := 0, y := 1, confidence := 0.9 }
  | _ => { x := 0, y := 0, confidence := 0 }

/-- The same geometry with the left hip dropped below the 0.6
visibility threshold. -/
def kP2 : KeypointName → Keypoint
  | left_hip => { x := 1, y := 0, confidence := 0.5 }
  | left_knee => { x := 0, y := 0, confidence := 0.9 }
  | left_ankle => { x := 0, y := 1, confidence := 0.9 }
  | _ => { x := 0, y := 0, confidence := 0 }

/-- First frame: visible right angle at the left hip. -/
def poseA : Pose := { keypoints := kP1, timestamp := 1000, frameId := 0 }

/-- Second frame: left hip no longer visible. -/
def poseB : Pose := { keypoints := kP2, timestamp := 1100, frameId := 1 }

/-- The left hip angle of `kP1` is 90 degrees. -/
lemma hip_kP1 : calculateHipAngle kP1 .left = 90 := by
  have hvis : areKeypointsVisible
      [sideHip kP1 .left, sideKnee kP1 .left, sideAnkle kP1 .left] := by
    simp only [areKeypointsVisible, sideHip, sideKnee, sideAnkle, kP1,
      List.mem_cons, List.not_mem_nil, or_false, forall_eq_or_imp, forall_eq]
    norm_num
  simp only [calculateHipAngle]
  rw [if_pos hvis]
  simp only [sideHip, sideKnee, sideAnkle, kP1]
  have e1 : (1 : ℝ) - 0 = 1 := by norm_num
  have e2 : (0 : ℝ) - 0 = 0 := by norm_num
  rw [e1, e2]
  exact angle_perp_deg

/-- The left hip angle of `kP2` is the neutral 0 (hip invisible). -/
lemma hip_kP2 : calculateHipAngle kP2 .left = 0 := by
  have hnv : ¬ areKeypointsVisible
      [sideHip kP2 .left, sideKnee kP2 .left, sideAnkle kP2 .left] := by
    intro hv
    have hkp := hv _ (List.mem_cons_self _ _)
    simp only [sideHip, kP2] at hkp
    norm_num at hkp
  simp only [calculateHipAngle]
  rw [if_neg hnv]

/-- C1 counterexample: on the second frame the left hip is below the
0.6 threshold, yet the returned left hip angle is 81 (smoothing blends
the previous 90° into the neutral 0), not 0 as the claim states. -/
theorem smoothing_leaks_into_invisible_angle_counterexample :
    (poseB.keypoints left_hip).confidence < 0.6 ∧
    (featureStep defaultConfig
        (some (featureStep defaultConfig none 1000 poseA))
        1100 poseB).angles.leftHip = 81 ∧
    (featureStep defaultConfig
        (some (featureStep defaultConfig none 1000 poseA))
        1100 poseB).angles.leftHip ≠ 0 := by
  have hc : (poseB.keypoints left_hip).confidence < 0.6 := by
    norm_num [poseB, kP2]
  have hprev : (featureStep defaultConfig none 1000 poseA).angles.leftHip = 90 := by
    rw [featureStep_none]
    show calculateHipAngle kP1 .left = 90
    exact hip_kP1
  have hval : (featureStep defaultConfig
      (some (featureStep defaultConfig none 1000 poseA))
      1100 poseB).angles.leftHip = 81 := by
    rw [featureStep_some _ _ _ _
      (by norm_num [defaultConfig] : (0 : ℝ) < defaultConfig.smoothingFactor)]
    show smoothValue
      ((rawFeatures defaultConfig
        (some (featureStep defaultConfig none 1000 poseA))
        1100 poseB).angles.leftHip)
      ((featureStep defaultConfig none 1000 poseA).angles.leftHip)
      defaultConfig.smoothingFactor = 81
    rw [show (rawFeatures defaultConfig
        (some (featureStep defaultConfig none 1000 poseA))
        1100 poseB).angles.leftHip = calculateHipAngle kP2 .left from rfl]
    rw [hip_kP2, hprev]
    norm_num [smoothValue, defaultConfig]
  refine ⟨hc, hval, ?_⟩
  rw [hval]
  norm_num

/-- C1 amended: before smoothing the hip angles and the body line are
exactly 0 when their keypoints are below the 0.6 threshold, so when no
previous `Features` is stored (first frame, or right after `reset()`)
the returned fields are exactly 0; `hasMinimumVisibility` is the
overall flag `overall ≥ 0.5`, not a per-angle indicator. -/
theorem invisible_angle_zero_before_smoothing (cfg : FeatureConfig)
    (now : ℝ) (pose : Pose) :
    (¬ areKeypointsVisible
        [sideHip pose.keypoints .left, sideKnee pose.keypoints .left,
          sideAnkle pose.keypoints .left] →
      (featureStep cfg none now pose).angles.leftHip = 0) ∧
    (¬ areKeypointsVisible
        [sideHip pose.keypoints .right, sideKnee pose.keypoints .right,
          sideAnkle pose.keypoints .right] →
      (featureStep cfg none now pose).angles.rightHip = 0) ∧
    ((∀ side, ¬ areKeypointsVisible
        [sideShoulder pose.keypoints side, sideHip pose.keypoints side,
          sideAnkle pose.keypoints side]) →
      (featureStep cfg none now pose).bodyLineAngle = 0) ∧
    ((featureStep cfg none now pose).visibility.hasMinimumVisibility ↔
      0.5 ≤ (featureStep cfg none now pose).visibility.overall) := by
  refine ⟨?_, ?_, ?_, Iff.rfl⟩
  · intro h
    show calculateHipAngle pose.keypoints .left = 0
    simp only [calculateHipAngle]
    rw [if_neg h]
  · intro h
    show calculateHipAngle pose.keypoints .right = 0
    simp only [calculateHipAngle]
    rw [if_neg h]
  · intro h
    show (calculateBodyLineStraightness pose.keypoints).angle = 0
    have hl : calculateBodyLineForSide pose.keypoints .left =
        { angle := 0, confidence := 0 } := by
      simp only [calculateBodyLineForSide]
      rw [if_neg (h .left)]
    have hr : calculateBodyLineForSide pose.keypoints .right =
        { angle := 0, confidence := 0 } := by
      simp only [calculateBodyLineForSide]
      rw [if_neg (h .right)]
    simp only [calculateBodyLineStraightness]
    rw [hl, hr]
    simp

/-- Witness for C1 (amended) at the all-invisible pose. -/
theorem invisible_angle_zero_before_smoothing_witness :
    ¬ areKeypointsVisible
      [sideHip poseZero.keypoints .left, sideKnee poseZero.keypoints .left,
        sideAnkle poseZero.keypoints .left] ∧
    (featureStep defaultConfig none 0 poseZero).angles.leftHip = 0 := by
  have h : ¬ areKeypointsVisible
      [sideHip poseZero.keypoints .left, sideKnee poseZero.keypoints .left,
        sideAnkle poseZero.keypoints .left] := by
    intro hv
    have hkp := hv _ (List.mem_cons_self _ _)
    norm_num [poseZero, kA, sideHip] at hkp
  exact ⟨h, (invisible_angle_zero_before_smoothing defaultConfig 0 poseZero).1 h⟩

end FeatureEngine
